import Mathlib

/-
Verification development for the Parkinsons voice-classifier API (src/app.py).

Shallow embedding:
* External library calls (pydub conversion, parselmouth acoustic metrics,
  the random-forest classifier) are modelled as oracles: the environment
  carries the outcome of each call (`Except String _`, error = Python
  exception).  Each parselmouth metric is one field of a `Sound` record, so
  two calls of the same method on the same sound return the same value
  (parselmouth computations are deterministic functions of the sound).
* Python floats are modelled as rationals; `np.nan` as `none` in `Option ℚ`.
* Python dicts are insertion-ordered association lists (`Feats`), with
  assignment `dset`, lookup `dget` and `dsetdefault`.
* The filesystem is the list of existing temp-file paths; `os.remove` on a
  missing path raises FileNotFoundError, as in Python.
* A handler run yields an `Outcome` (a JSON response with a status, or an
  unhandled exception that escapes the handler — Flask then produces a
  generic framework 500, not the handler JSON) together with the final set
  of temp files.

The embedding keeps the control flow of src/app.py exactly, including:
* the upload validation at line 87;
* the conversion try/except/finally at lines 98–104 with Python `finally`
  semantics: an exception raised in `finally` discards a pending `return`;
* the fact that the name `AudioSegment` is never imported in app.py, so the
  real conversion call always raises NameError (`actualConvResult`).
-/

deriving instance DecidableEq for Except

namespace ParkinsonsApp

/-- Feature dict: Python dict from feature name to float value, where a
value of `none` models `np.nan`. -/
abbrev Feats := List (String × Option ℚ)

/-- THRESHOLD = 0.63 (src/app.py line 20). -/
def THRESHOLD : ℚ := 0.63

/-- FEATURE_COLS (src/app.py lines 22–27): the fixed trained column order. -/
def FEATURE_COLS : List String :=
  ["MDVP:Fo(Hz)", "MDVP:Fhi(Hz)", "MDVP:Flo(Hz)",
   "MDVP:Jitter(%)", "MDVP:Jitter(Abs)", "MDVP:RAP", "MDVP:PPQ",
   "Jitter:DDP", "MDVP:Shimmer", "MDVP:Shimmer(dB)", "Shimmer:APQ3",
   "Shimmer:APQ5", "MDVP:APQ", "Shimmer:DDA", "NHR", "HNR"]

/-- The eleven keys of the guarded jitter/shimmer block, in the order of the
`except` branch list at src/app.py lines 61–65. -/
def JITTER_SHIMMER_KEYS : List String :=
  ["MDVP:Jitter(%)", "MDVP:Jitter(Abs)", "MDVP:RAP", "MDVP:PPQ", "Jitter:DDP",
   "MDVP:Shimmer", "MDVP:Shimmer(dB)", "Shimmer:APQ3", "Shimmer:APQ5",
   "MDVP:APQ", "Shimmer:DDA"]

/-- Python dict assignment `d[k] = v`: overwrite in place when the key is
present, else append at the end (dicts are insertion-ordered; keys are
unique, so overwriting the first occurrence is dict assignment). -/
def dset (d : Feats) (k : String) (v : Option ℚ) : Feats :=
  match d with
  | [] => [(k, v)]
  | p :: rest => if p.1 = k then (k, v) :: rest else p :: dset rest k v

/-- Python dict lookup: `some v` when the key is present with value `v`. -/
def dget (d : Feats) (k : String) : Option (Option ℚ) :=
  match d with
  | [] => none
  | p :: rest => if p.1 = k then some p.2 else dget rest k

/-- Python `d.setdefault(k, v)`: insert only when the key is absent. -/
def dsetdefault (d : Feats) (k : String) (v : Option ℚ) : Feats :=
  match d with
  | [] => [(k, v)]
  | p :: rest => if p.1 = k then p :: rest else p :: dsetdefault rest k v

/-- np.nanmean over a plain float array: NaN (with a suppressed warning) on
an empty array, the mean otherwise. -/
def nanmean (xs : List ℚ) : Option ℚ :=
  if xs.isEmpty then none else some (xs.sum / xs.length)

/-- np.nanmax over a plain float array: raises ValueError on an empty array
(zero-size reduction has no identity), the maximum otherwise. -/
def nanmax (xs : List ℚ) : Except String ℚ :=
  match xs with
  | [] => .error "zero-size array to reduction operation fmax"
  | x :: rest => .ok (rest.foldl max x)

/-- np.nanmin over a plain float array: raises ValueError on an empty array,
the minimum otherwise. -/
def nanmin (xs : List ℚ) : Except String ℚ :=
  match xs with
  | [] => .error "zero-size array to reduction operation fmin"
  | x :: rest => .ok (rest.foldl min x)

/-- Oracle for the parselmouth sound loaded from the WAV: the outcome of each
external acoustic computation used by extract_features.  One field per
method, so repeated calls of a method agree (the library is deterministic). -/
structure Sound where
  pitchFrequencies : Except String (List ℚ)
  pointProcessCC : Except String Unit
  jitterLocal : Except String ℚ
  jitterLocalAbsolute : Except String ℚ
  jitterRap : Except String ℚ
  jitterPpq5 : Except String ℚ
  jitterDdp : Except String ℚ
  shimmerLocal : Except String ℚ
  shimmerLocalDB : Except String ℚ
  shimmerApq3 : Except String ℚ
  shimmerApq5 : Except String ℚ
  shimmerDda : Except String ℚ
  noiseHarmonicsRatioCall : Except String ℚ
  harmonicsNoiseRatioCall : Except String ℚ

/-- The body of the try at src/app.py lines 47–58: the eleven assignments in
source order, stopping at the first raising metric.  Python keeps the partial
assignments made before the raise, but the `except` branch overwrites exactly
those eleven keys, so discarding the partial dict is observationally equal. -/
def jitterShimmerTry (snd : Sound) (feats : Feats) : Except String Feats := do
  let v ← snd.jitterLocal
  let feats := dset feats "MDVP:Jitter(%)" (some (v * 100))
  let v ← snd.jitterLocalAbsolute
  let feats := dset feats "MDVP:Jitter(Abs)" (some v)
  let v ← snd.jitterRap
  let feats := dset feats "MDVP:RAP" (some v)
  let v ← snd.jitterPpq5
  let feats := dset feats "MDVP:PPQ" (some v)
  let v ← snd.jitterDdp
  let feats := dset feats "Jitter:DDP" (some v)
  let v ← snd.shimmerLocal
  let feats := dset feats "MDVP:Shimmer" (some v)
  let v ← snd.shimmerLocalDB
  let feats := dset feats "MDVP:Shimmer(dB)" (some v)
  let v ← snd.shimmerApq3
  let feats := dset feats "Shimmer:APQ3" (some v)
  let v ← snd.shimmerApq5
  let feats := dset feats "Shimmer:APQ5" (some v)
  let v2 ← snd.shimmerApq5
  let feats := dset feats "MDVP:APQ" (some v2)
  let v ← snd.shimmerDda
  let feats := dset feats "Shimmer:DDA" (some v)
  pure feats

/-- The guarded jitter/shimmer block (src/app.py lines 47–65): on any raise
inside the try, the except branch fills all eleven keys with np.nan. -/
def jitterShimmerBlock (snd : Sound) (feats : Feats) : Feats :=
  match jitterShimmerTry snd feats with
  | .ok f => f
  | .error _ => JITTER_SHIMMER_KEYS.foldl (fun d k => dset d k none) feats

/-- One-line try/except used for NHR and HNR (src/app.py lines 68–71):
np.nan when the call raises. -/
def noiseTry (call : Except String ℚ) : Option ℚ :=
  match call with
  | .ok v => some v
  | .error _ => none

/-- Pure part of extract_features: the dict after the three pitch
assignments (lines 41–43), the guarded jitter/shimmer block, the two noise
try/excepts, and the setdefault loop of lines 74–75. -/
def rawFeats (snd : Sound) (freqs : List ℚ) (fhi flo : ℚ) : Feats :=
  let feats : Feats :=
    dset (dset (dset [] "MDVP:Fo(Hz)" (nanmean freqs))
      "MDVP:Fhi(Hz)" (some fhi)) "MDVP:Flo(Hz)" (some flo)
  let feats := jitterShimmerBlock snd feats
  let feats := dset feats "NHR" (noiseTry snd.noiseHarmonicsRatioCall)
  let feats := dset feats "HNR" (noiseTry snd.harmonicsNoiseRatioCall)
  FEATURE_COLS.foldl (fun d c => dsetdefault d c none) feats

/-- extract_features (src/app.py lines 35–77).  The pitch stage (lines
40–43) and to_point_process_cc (line 46) are OUTSIDE every try block: a
raise there aborts the whole extraction.  All dict building between those
calls is pure, so it is gathered in `rawFeats`; the returned DataFrame row
is the 16 columns of FEATURE_COLS in order. -/
def extract_features (snd : Sound) : Except String Feats := do
  let freqs ← snd.pitchFrequencies
  let fhi ← nanmax freqs
  let flo ← nanmin freqs
  let _pp ← snd.pointProcessCC
  pure (FEATURE_COLS.map (fun c => (c, (dget (rawFeats snd freqs fhi flo) c).getD none)))

/-- Multipart request: the file parts, each a (field name, filename) pair. -/
structure Request where
  files : List (String × String)

/-- Upload validation at src/app.py line 87: true when there is no part named
file, or the file part has an empty filename. -/
def invalidUpload (req : Request) : Bool :=
  match req.files.find? (fun p => p.1 = "file") with
  | none => true
  | some p => p.2 = ""

/-- Path of the NamedTemporaryFile holding the raw upload (line 92–94). -/
def orig_path : String := "/tmp/upload-orig"

/-- Path of the converted WAV, `/tmp/<uuid4>.wav` (line 97). -/
def wav_path : String := "/tmp/converted.wav"

/-- os.remove: deletes the path when it exists, raises FileNotFoundError
otherwise. -/
def osRemove (fs : List String) (p : String) : Except String (List String) :=
  if p ∈ fs then .ok (fs.filter (fun q => q ≠ p)) else .error "FileNotFoundError"

/-- JSON body of a handler response. -/
inductive Body where
  | errorBody (msg : String)
  | successBody (result : String) (probability : ℚ) (threshold : ℚ)
deriving DecidableEq, Repr

/-- Result of one handler run: a (status, JSON body) response returned by the
handler, or an exception that escapes the handler (Flask then sends its
generic framework 500 error page instead of the handler JSON). -/
inductive Outcome where
  | json (status : Nat) (body : Body)
  | unhandled (excName : String)
deriving DecidableEq, Repr

/-- Environment of one request: outcomes of the external calls the handler
makes.  `conv` is the pydub conversion at line 99, `snd` the parselmouth
computations on the converted WAV, `predictProba` the classifier call. -/
structure PredictEnv where
  conv : Except String Unit
  snd : Sound
  predictProba : Except String ℚ

/-- Python round-half-to-even of a rational to an integer. -/
def roundHalfEven (q : ℚ) : ℤ :=
  let f : ℤ := ⌊q⌋
  let r : ℚ := q - f
  if r < 1 / 2 then f
  else if 1 / 2 < r then f + 1
  else if f % 2 = 0 then f else f + 1

/-- Python round(x, 3): round to three decimal places, ties to even. -/
def pyRound3 (q : ℚ) : ℚ := (roundHalfEven (q * 1000) : ℚ) / 1000

/-- Label for a positive verdict (src/app.py line 111). -/
def PD_LABEL : String := "Likely Parkinson\x27s Disease"

/-- Label for a negative verdict (src/app.py line 111). -/
def HEALTHY_LABEL : String := "Likely Healthy"

/-- Body of the try at src/app.py lines 107–111: extract features, obtain the
positive-class probability, compare strictly against THRESHOLD and pick the
label.  An error is a raise anywhere inside the try. -/
def classifyStage (snd : Sound) (predictProba : Except String ℚ) :
    Except String (String × ℚ) := do
  let _feats ← extract_features snd
  let prob ← predictProba
  let result := if prob > THRESHOLD then PD_LABEL else HEALTHY_LABEL
  pure (result, prob)

/-- predict handler (src/app.py lines 84–117), returning the outcome and the
final list of temp files still on disk.  The conversion try/except/finally
follows Python semantics: the except branch removes orig_path and prepares a
400 return, then the finally clause runs `os.remove(orig_path)` again; an
exception raised in finally discards the pending return and escapes. -/
def predict (req : Request) (env : PredictEnv) : Outcome × List String :=
  if invalidUpload req then (.json 400 (.errorBody "No file uploaded"), [])
  else
    let fs : List String := [orig_path]
    match env.conv with
    | .error e =>
      match osRemove fs orig_path with
      | .error ex => (.unhandled ex, fs)
      | .ok fs1 =>
        match osRemove fs1 orig_path with
        | .error ex => (.unhandled ex, fs1)
        | .ok fs2 => (.json 400 (.errorBody ("Audio conversion failed: " ++ e)), fs2)
    | .ok _ =>
      let fs := fs ++ [wav_path]
      match osRemove fs orig_path with
      | .error ex => (.unhandled ex, fs)
      | .ok fs1 =>
        match classifyStage env.snd env.predictProba with
        | .error e =>
          match osRemove fs1 wav_path with
          | .error ex => (.unhandled ex, fs1)
          | .ok fs2 => (.json 500 (.errorBody ("Feature extraction failed: " ++ e)), fs2)
        | .ok rp =>
          match osRemove fs1 wav_path with
          | .error ex => (.unhandled ex, fs1)
          | .ok fs2 =>
            (.json 200 (.successBody rp.1 (pyRound3 rp.2) THRESHOLD), fs2)

/-- Outcome of the conversion call in the program as written: app.py never
imports AudioSegment (there is no pydub import), so line 99 raises NameError
on every request that reaches it. -/
def actualConvResult : Except String Unit :=
  .error "name \x27AudioSegment\x27 is not defined"

/-- predict as the shipped program runs it: the conversion oracle fixed to
the NameError that the missing import produces. -/
def predictActual (req : Request) (snd : Sound) (pp : Except String ℚ) :
    Outcome × List String :=
  predict req { conv := actualConvResult, snd := snd, predictProba := pp }

/- Concrete fixtures used by witnesses and counterexamples. -/

/-- A sound on which every acoustic computation succeeds. -/
def sndOK : Sound :=
  { pitchFrequencies := .ok [100, 150, 120], pointProcessCC := .ok (),
    jitterLocal := .ok (1 / 100), jitterLocalAbsolute := .ok (2 / 100),
    jitterRap := .ok (3 / 100), jitterPpq5 := .ok (4 / 100),
    jitterDdp := .ok (5 / 100), shimmerLocal := .ok (6 / 100),
    shimmerLocalDB := .ok (7 / 100), shimmerApq3 := .ok (8 / 100),
    shimmerApq5 := .ok (9 / 100), shimmerDda := .ok (10 / 100),
    noiseHarmonicsRatioCall := .ok (11 / 100),
    harmonicsNoiseRatioCall := .ok (12 / 100) }

/-- A sound on which the last guarded jitter/shimmer metric raises after the
earlier ten have already been computed. -/
def sndDdaFail : Sound := { sndOK with shimmerDda := .error "boom" }

/-- A sound whose pitch frequency array is empty, so the unguarded
np.nanmax at line 42 raises ValueError. -/
def sndPitchEmpty : Sound := { sndOK with pitchFrequencies := .ok [] }

/-- A request with a well-named file part. -/
def reqGood : Request := { files := [("file", "voice.wav")] }

/-- A request with no part named file. -/
def reqNone : Request := { files := [("other", "voice.wav")] }

/-- A request whose file part has an empty filename. -/
def reqEmptyName : Request := { files := [("file", "")] }

/-- A sound with one guarded jitter/shimmer failure and one guarded noise
failure, everything unguarded fine. -/
def sndManyFail : Sound :=
  { sndOK with jitterLocal := .error "no voiced cycles",
               noiseHarmonicsRatioCall := .error "no harmonics" }

/-- The row extract_features produces on sndOK, written as the map term the
pipeline returns (rational values left unevaluated). -/
def rowOK : Feats :=
  FEATURE_COLS.map (fun c =>
    (c, (dget (rawFeats sndOK [100, 150, 120]
      ([(150 : ℚ), 120].foldl max 100)
      ([(150 : ℚ), 120].foldl min 100)) c).getD none))

/-- An environment where every external call succeeds, probability 1/2. -/
def envAny : PredictEnv :=
  { conv := .ok (), snd := sndOK, predictProba := .ok (1 / 2) }

/-- An environment where conversion succeeds but the pitch array is empty,
so extraction raises. -/
def envPitchEmpty : PredictEnv :=
  { conv := .ok (), snd := sndPitchEmpty, predictProba := .ok (1 / 2) }

/-- An all-success environment with probability 0.7, above the threshold. -/
def envOK70 : PredictEnv :=
  { conv := .ok (), snd := sndOK, predictProba := .ok (7 / 10) }

/-- An all-success environment with probability exactly THRESHOLD. -/
def envThr : PredictEnv :=
  { conv := .ok (), snd := sndOK, predictProba := .ok THRESHOLD }

/-- An environment whose conversion call fails with a codec error. -/
def envConvFail : PredictEnv :=
  { conv := .error "Decoding failed", snd := sndOK,
    predictProba := .ok (1 / 2) }

/- Dictionary lemmas. -/

theorem dget_dset (d : Feats) (k q : String) (v : Option ℚ) :
    dget (dset d k v) q = if q = k then some v else dget d q := by
  induction d with
  | nil =>
    by_cases hq : q = k
    · subst hq
      simp [dget, dset]
    · have hkq : ¬(k = q) := fun h => hq h.symm
      simp [dget, dset, hq, hkq]
  | cons p rest ih =>
    by_cases hp : p.1 = k
    · by_cases hq : q = k
      · subst hq
        simp [dget, dset, hp]
      · have hpq : ¬(p.1 = q) := fun h => hq (by rw [← h, hp])
        have hkq : ¬(k = q) := fun h => hq h.symm
        simp [dget, dset, hp, hq, hpq, hkq]
    · by_cases hpq : p.1 = q
      · have hq : ¬(q = k) := fun h => hp (by rw [hpq, h])
        simp [dget, dset, hp, hpq, hq]
      · simp [dget, dset, hp, hpq, ih]

theorem dget_dsetdefault (d : Feats) (k q : String) (v : Option ℚ) :
    dget (dsetdefault d k v) q =
      if q = k then some ((dget d k).getD v) else dget d q := by
  induction d with
  | nil =>
    by_cases hq : q = k
    · subst hq
      simp [dget, dsetdefault]
    · have hkq : ¬(k = q) := fun h => hq h.symm
      simp [dget, dsetdefault, hq, hkq]
  | cons p rest ih =>
    by_cases hp : p.1 = k
    · by_cases hq : q = k
      · subst hq
        simp [dget, dsetdefault, hp]
      · have hpq : ¬(p.1 = q) := fun h => hq (by rw [← h, hp])
        have hkq : ¬(k = q) := fun h => hq h.symm
        simp [dget, dsetdefault, hp, hq, hpq, hkq]
    · by_cases hpq : p.1 = q
      · have hq : ¬(q = k) := fun h => hp (by rw [hpq, h])
        simp [dget, dsetdefault, hp, hpq, hq]
      · simp [dget, dsetdefault, hp, hpq, ih]

theorem dget_foldl_dsetdefault_present (ks : List String) (d : Feats)
    (q : String) (w : Option ℚ) (h : dget d q = some w) :
    dget (ks.foldl (fun d c => dsetdefault d c none) d) q = some w := by
  induction ks generalizing d with
  | nil => exact h
  | cons c rest ih =>
    refine ih (dsetdefault d c none) ?_
    rw [dget_dsetdefault]
    by_cases hq : q = c
    · subst hq
      simp [h]
    · simp [hq, h]

theorem dget_foldl_dset_not_mem (ks : List String) (d : Feats) (k : String)
    (h : k ∉ ks) :
    dget (ks.foldl (fun d c => dset d c none) d) k = dget d k := by
  induction ks generalizing d with
  | nil => rfl
  | cons c rest ih =>
    have hkc : k ≠ c := fun hh => h (by simp [hh])
    have hr : k ∉ rest := fun hh => h (by simp [hh])
    rw [List.foldl_cons, ih (dset d c none) hr, dget_dset]
    simp [hkc]

theorem dget_foldl_dset_none_mem (ks : List String) (d : Feats) (k : String)
    (h : k ∈ ks) :
    dget (ks.foldl (fun d c => dset d c none) d) k = some none := by
  induction ks generalizing d with
  | nil => cases h
  | cons c rest ih =>
    rw [List.foldl_cons]
    by_cases hr : k ∈ rest
    · exact ih (dset d c none) hr
    · have hkc : k = c := by
        rcases List.mem_cons.mp h with h1 | h1
        · exact h1
        · exact absurd h1 hr
      rw [dget_foldl_dset_not_mem rest (dset d c none) k hr, dget_dset]
      simp [hkc]

theorem dget_map_keys (ks : List String) (g : String → Option ℚ)
    (k : String) (h : k ∈ ks) :
    dget (ks.map (fun c => (c, g c))) k = some (g k) := by
  induction ks with
  | nil => cases h
  | cons c rest ih =>
    by_cases hck : c = k
    · subst hck
      simp [dget]
    · have hmem : k ∈ rest := by
        rcases List.mem_cons.mp h with h1 | h1
        · exact absurd h1.symm hck
        · exact h1
      simp [dget, hck, ih hmem]

/- Extraction lemmas. -/

theorem extract_features_eq_ok (snd : Sound) (freqs : List ℚ) (fhi flo : ℚ)
    (h1 : snd.pitchFrequencies = .ok freqs) (h2 : nanmax freqs = .ok fhi)
    (h3 : nanmin freqs = .ok flo) (h4 : snd.pointProcessCC = .ok ()) :
    extract_features snd =
      .ok (FEATURE_COLS.map
        (fun c => (c, (dget (rawFeats snd freqs fhi flo) c).getD none))) := by
  unfold extract_features
  rw [h1]
  simp only [bind, Except.bind]
  rw [h2]
  simp only [bind, Except.bind]
  rw [h3]
  simp only [bind, Except.bind]
  rw [h4]
  simp only [bind, Except.bind, pure, Except.pure]

theorem extract_features_ok_inv (snd : Sound) (d : Feats)
    (h : extract_features snd = .ok d) :
    ∃ freqs fhi flo, snd.pitchFrequencies = .ok freqs ∧
      nanmax freqs = .ok fhi ∧ nanmin freqs = .ok flo ∧
      snd.pointProcessCC = .ok () ∧
      d = FEATURE_COLS.map
        (fun c => (c, (dget (rawFeats snd freqs fhi flo) c).getD none)) := by
  unfold extract_features at h
  cases h1 : snd.pitchFrequencies with
  | error e =>
    rw [h1] at h
    simp [bind, Except.bind] at h
  | ok freqs =>
    rw [h1] at h
    simp only [bind, Except.bind] at h
    cases h2 : nanmax freqs with
    | error e =>
      rw [h2] at h
      simp [bind, Except.bind] at h
    | ok fhi =>
      rw [h2] at h
      simp only [bind, Except.bind] at h
      cases h3 : nanmin freqs with
      | error e =>
        rw [h3] at h
        simp [bind, Except.bind] at h
      | ok flo =>
        rw [h3] at h
        simp only [bind, Except.bind] at h
        cases h4 : snd.pointProcessCC with
        | error e =>
          rw [h4] at h
          simp [bind, Except.bind] at h
        | ok u =>
          rw [h4] at h
          cases u
          simp only [bind, Except.bind, pure, Except.pure] at h
          cases h
          exact ⟨freqs, fhi, flo, rfl, h2, h3, rfl, rfl⟩

theorem jitterShimmerTry_ok_apq (snd : Sound) (f0 f : Feats)
    (h : jitterShimmerTry snd f0 = .ok f) :
    ∃ x : Option ℚ,
      dget f "MDVP:APQ" = some x ∧ dget f "Shimmer:APQ5" = some x := by
  unfold jitterShimmerTry at h
  cases c1 : snd.jitterLocal with
  | error e => simp [c1, bind, Except.bind] at h
  | ok v1 =>
    simp only [c1, bind, Except.bind] at h
    cases c2 : snd.jitterLocalAbsolute with
    | error e => simp [c2, bind, Except.bind] at h
    | ok v2 =>
      simp only [c2, bind, Except.bind] at h
      cases c3 : snd.jitterRap with
      | error e => simp [c3, bind, Except.bind] at h
      | ok v3 =>
        simp only [c3, bind, Except.bind] at h
        cases c4 : snd.jitterPpq5 with
        | error e => simp [c4, bind, Except.bind] at h
        | ok v4 =>
          simp only [c4, bind, Except.bind] at h
          cases c5 : snd.jitterDdp with
          | error e => simp [c5, bind, Except.bind] at h
          | ok v5 =>
            simp only [c5, bind, Except.bind] at h
            cases c6 : snd.shimmerLocal with
            | error e => simp [c6, bind, Except.bind] at h
            | ok v6 =>
              simp only [c6, bind, Except.bind] at h
              cases c7 : snd.shimmerLocalDB with
              | error e => simp [c7, bind, Except.bind] at h
              | ok v7 =>
                simp only [c7, bind, Except.bind] at h
                cases c8 : snd.shimmerApq3 with
                | error e => simp [c8, bind, Except.bind] at h
                | ok v8 =>
                  simp only [c8, bind, Except.bind] at h
                  cases c9 : snd.shimmerApq5 with
                  | error e => simp [c9, bind, Except.bind] at h
                  | ok v9 =>
                    simp only [c9, bind, Except.bind] at h
                    cases c10 : snd.shimmerDda with
                    | error e => simp [c10, bind, Except.bind] at h
                    | ok v10 =>
                      simp only [c10, bind, Except.bind, pure,
                        Except.pure] at h
                      injection h with h
                      subst h
                      exact ⟨some v9, by simp [dget_dset], by simp [dget_dset]⟩

theorem jitterShimmerBlock_apq (snd : Sound) (f0 : Feats) :
    ∃ x : Option ℚ,
      dget (jitterShimmerBlock snd f0) "MDVP:APQ" = some x ∧
      dget (jitterShimmerBlock snd f0) "Shimmer:APQ5" = some x := by
  unfold jitterShimmerBlock
  cases htry : jitterShimmerTry snd f0 with
  | error e =>
    refine ⟨none, ?_, ?_⟩ <;>
      exact dget_foldl_dset_none_mem _ _ _ (by simp [JITTER_SHIMMER_KEYS])
  | ok f =>
    exact jitterShimmerTry_ok_apq snd f0 f htry

theorem rawFeats_apq (snd : Sound) (freqs : List ℚ) (fhi flo : ℚ) :
    dget (rawFeats snd freqs fhi flo) "MDVP:APQ" =
    dget (rawFeats snd freqs fhi flo) "Shimmer:APQ5" := by
  obtain ⟨x, hx1, hx2⟩ := jitterShimmerBlock_apq snd
    (dset (dset (dset [] "MDVP:Fo(Hz)" (nanmean freqs))
      "MDVP:Fhi(Hz)" (some fhi)) "MDVP:Flo(Hz)" (some flo))
  unfold rawFeats
  have g1 : dget (dset (dset (jitterShimmerBlock snd
      (dset (dset (dset [] "MDVP:Fo(Hz)" (nanmean freqs))
        "MDVP:Fhi(Hz)" (some fhi)) "MDVP:Flo(Hz)" (some flo)))
      "NHR" (noiseTry snd.noiseHarmonicsRatioCall))
      "HNR" (noiseTry snd.harmonicsNoiseRatioCall)) "MDVP:APQ" = some x := by
    rw [dget_dset, dget_dset]
    simp [hx1]
  have g2 : dget (dset (dset (jitterShimmerBlock snd
      (dset (dset (dset [] "MDVP:Fo(Hz)" (nanmean freqs))
        "MDVP:Fhi(Hz)" (some fhi)) "MDVP:Flo(Hz)" (some flo)))
      "NHR" (noiseTry snd.noiseHarmonicsRatioCall))
      "HNR" (noiseTry snd.harmonicsNoiseRatioCall)) "Shimmer:APQ5" = some x := by
    rw [dget_dset, dget_dset]
    simp [hx2]
  rw [dget_foldl_dsetdefault_present FEATURE_COLS _ _ x g1,
    dget_foldl_dsetdefault_present FEATURE_COLS _ _ x g2]

/- Handler reduction lemmas. -/

theorem classifyStage_ok_of (snd : Sound) (pp : Except String ℚ)
    (d : Feats) (p : ℚ) (hd : extract_features snd = .ok d)
    (hp : pp = .ok p) :
    classifyStage snd pp =
      .ok ((if p > THRESHOLD then PD_LABEL else HEALTHY_LABEL), p) := by
  unfold classifyStage
  rw [hd]
  simp only [bind, Except.bind]
  rw [hp]
  simp [bind, Except.bind, pure, Except.pure]

theorem predict_no_file (req : Request) (env : PredictEnv)
    (h : invalidUpload req = true) :
    predict req env = (.json 400 (.errorBody "No file uploaded"), []) := by
  simp [predict, h]

theorem predict_conv_error (req : Request) (env : PredictEnv) (e : String)
    (h : invalidUpload req = false) (hc : env.conv = .error e) :
    predict req env = (.unhandled "FileNotFoundError", []) := by
  simp [predict, h, hc, osRemove, orig_path, wav_path]

theorem predict_classify_error (req : Request) (env : PredictEnv) (e : String)
    (h : invalidUpload req = false) (hc : env.conv = .ok ())
    (hcl : classifyStage env.snd env.predictProba = .error e) :
    predict req env =
      (.json 500 (.errorBody ("Feature extraction failed: " ++ e)), []) := by
  simp [predict, h, hc, hcl, osRemove, orig_path, wav_path]

theorem predict_success (req : Request) (env : PredictEnv) (r : String) (p : ℚ)
    (h : invalidUpload req = false) (hc : env.conv = .ok ())
    (hcl : classifyStage env.snd env.predictProba = .ok (r, p)) :
    predict req env =
      (.json 200 (.successBody r (pyRound3 p) THRESHOLD), []) := by
  simp [predict, h, hc, hcl, osRemove, orig_path, wav_path]

theorem extract_features_sndOK : extract_features sndOK = .ok rowOK :=
  extract_features_eq_ok sndOK [100, 150, 120]
    ([(150 : ℚ), 120].foldl max 100) ([(150 : ℚ), 120].foldl min 100)
    rfl rfl rfl rfl

/- Claim theorems. -/

/-- C1: the claim says every POST /predict with a valid short recording in
the field file returns a success JSON with a probability in [0,1] and a
verdict against threshold 0.63.  The shipped code cannot return it:
AudioSegment is never imported in app.py, so the conversion call at line 99
raises NameError on every request, the except branch removes the upload and
prepares a 400, and the duplicate os.remove in the finally clause then
raises FileNotFoundError, which discards the pending return and escapes the
handler.  For every valid upload the outcome is the unhandled
FileNotFoundError — never a 200 JSON. -/
theorem claim_C1_code_actual (req : Request) (snd : Sound)
    (pp : Except String ℚ) (h : invalidUpload req = false) :
    (predictActual req snd pp).1 = .unhandled "FileNotFoundError" := by
  unfold predictActual
  rw [predict_conv_error req _ "name \x27AudioSegment\x27 is not defined" h rfl]

/-- C1 witness: a concrete valid WAV upload ends in the unhandled
FileNotFoundError. -/
theorem claim_C1_witness :
    invalidUpload reqGood = false ∧
    (predictActual reqGood sndOK (.ok (7 / 10))).1 =
      .unhandled "FileNotFoundError" :=
  ⟨by decide, claim_C1_code_actual reqGood sndOK (.ok (7 / 10)) (by decide)⟩

/-- C2: the claim says a conversion failure yields HTTP 400 with a JSON
error body.  The except branch at lines 100–102 does prepare exactly that,
but the finally clause at lines 103–104 runs os.remove(orig_path) a second
time on the already-deleted file; the FileNotFoundError raised there
discards the pending 400 return and escapes the handler, so the client gets
the framework's generic 500 page, never the handler's 400 JSON. -/
theorem claim_C2_code_actual (req : Request) (env : PredictEnv) (e : String)
    (h : invalidUpload req = false) (hc : env.conv = .error e) :
    (predict req env).1 = .unhandled "FileNotFoundError" := by
  rw [predict_conv_error req env e h hc]

/-- C2 witness: a concrete failing conversion ends in the unhandled
FileNotFoundError rather than a 400 JSON. -/
theorem claim_C2_witness :
    invalidUpload reqGood = false ∧ envConvFail.conv = .error "Decoding failed" ∧
    (predict reqGood envConvFail).1 = .unhandled "FileNotFoundError" :=
  ⟨by decide, rfl,
   claim_C2_code_actual reqGood envConvFail "Decoding failed" (by decide) rfl⟩

/-- C3: on every request and every combination of external-call outcomes —
missing file, conversion failure (including the buggy double-remove path),
extraction/classification failure, and success — every temp file the
handler created (the saved upload and the converted WAV) has been removed
by the time the handler exits. -/
theorem claim_C3_no_temp_files (req : Request) (env : PredictEnv) :
    (predict req env).2 = [] := by
  cases hv : invalidUpload req with
  | true => rw [predict_no_file req env hv]
  | false =>
    cases hc : env.conv with
    | error e => rw [predict_conv_error req env e hv hc]
    | ok u =>
      cases u
      cases hcl : classifyStage env.snd env.predictProba with
      | error e => rw [predict_classify_error req env e hv hc hcl]
      | ok rp => rw [predict_success req env rp.1 rp.2 hv hc (by rw [← hcl])]

/-- C4 counterexample: the claim says ANY individual metric that fails is
recorded as a missing value rather than aborting, so the classifier always
receives the full 16-entry vector.  But the pitch stage (lines 40–43) is
outside every try block: on a recording whose pitch frequency array is
empty, np.nanmax raises, extract_features aborts with an exception, and the
classifier receives nothing — the handler returns the 500 error instead. -/
theorem claim_C4_counterexample :
    extract_features sndPitchEmpty =
      .error "zero-size array to reduction operation fmax" ∧
    (predict reqGood envPitchEmpty).1 =
      .json 500 (.errorBody
        "Feature extraction failed: zero-size array to reduction operation fmax") := by
  constructor
  · rfl
  · rfl

/-- C4 amended: metrics inside the guarded blocks (the eleven jitter/shimmer
metrics and the two noise ratios) that fail are recorded as missing rather
than aborting, but a failure in the unguarded pitch stage or point-process
call aborts the whole extraction; whenever extraction completes, the
classifier receives exactly the 16 named entries in the fixed trained
order. -/
theorem claim_C4_amended_theorem (snd : Sound) (freqs : List ℚ)
    (h1 : snd.pitchFrequencies = .ok freqs) (h2 : freqs ≠ [])
    (h3 : snd.pointProcessCC = .ok ()) :
    ∃ d, extract_features snd = .ok d ∧
      d.map Prod.fst = FEATURE_COLS ∧ d.length = 16 := by
  cases freqs with
  | nil => exact absurd rfl h2
  | cons a l =>
    refine ⟨_, extract_features_eq_ok snd (a :: l) (l.foldl max a)
      (l.foldl min a) h1 rfl rfl h3, ?_, ?_⟩
    · rfl
    · rw [List.length_map]
      rfl

/-- C4 amended witness: with a jitter metric and a noise ratio failing but
the unguarded stages fine, extraction still returns the full 16-column
row. -/
theorem claim_C4_amended_witness :
    sndManyFail.pitchFrequencies = .ok [100, 150, 120] ∧
    ([100, 150, 120] : List ℚ) ≠ [] ∧
    sndManyFail.pointProcessCC = .ok () ∧
    ∃ d, extract_features sndManyFail = .ok d ∧
      d.map Prod.fst = FEATURE_COLS ∧ d.length = 16 :=
  ⟨rfl, by decide, rfl,
   claim_C4_amended_theorem sndManyFail [100, 150, 120] rfl (by decide) rfl⟩

/-- C5: a request with no part named file, or whose file part has an empty
filename, gets HTTP 400 with the JSON error body, for every environment. -/
theorem claim_C5_missing_file (req : Request) (env : PredictEnv)
    (h : invalidUpload req = true) :
    (predict req env).1 = .json 400 (.errorBody "No file uploaded") := by
  rw [predict_no_file req env h]

/-- C5 witness: both rejection cases — no file part, and an empty
filename — at concrete requests. -/
theorem claim_C5_witness :
    invalidUpload reqNone = true ∧ invalidUpload reqEmptyName = true ∧
    (predict reqNone envAny).1 = .json 400 (.errorBody "No file uploaded") ∧
    (predict reqEmptyName envAny).1 = .json 400 (.errorBody "No file uploaded") :=
  ⟨by decide, by decide, claim_C5_missing_file reqNone envAny (by decide),
   claim_C5_missing_file reqEmptyName envAny (by decide)⟩

/-- C6: whenever the conversion succeeded and feature extraction or
classification raises, the handler returns HTTP 500 with a JSON error body,
and the converted WAV (indeed every temp file) is removed before
returning. -/
theorem claim_C6_extraction_failure (req : Request) (env : PredictEnv)
    (e : String) (h : invalidUpload req = false) (hc : env.conv = .ok ())
    (hcl : classifyStage env.snd env.predictProba = .error e) :
    (predict req env).1 =
      .json 500 (.errorBody ("Feature extraction failed: " ++ e)) ∧
    (predict req env).2 = [] := by
  rw [predict_classify_error req env e h hc hcl]
  exact ⟨rfl, rfl⟩

/-- C6 witness: a concrete extraction failure (empty pitch array) returns
the 500 JSON and leaves no temp files. -/
theorem claim_C6_witness :
    invalidUpload reqGood = false ∧ envPitchEmpty.conv = .ok () ∧
    classifyStage envPitchEmpty.snd envPitchEmpty.predictProba =
      .error "zero-size array to reduction operation fmax" ∧
    ((predict reqGood envPitchEmpty).1 =
      .json 500 (.errorBody ("Feature extraction failed: " ++
        "zero-size array to reduction operation fmax")) ∧
     (predict reqGood envPitchEmpty).2 = []) :=
  ⟨by decide, rfl, rfl,
   claim_C6_extraction_failure reqGood envPitchEmpty
     "zero-size array to reduction operation fmax" (by decide) rfl rfl⟩

/-- C7: on a successful request, the verdict label is picked by comparing
the classifier's positive-class probability to the fixed THRESHOLD, the
probability field is that probability rounded to three decimal places, and
the threshold field is THRESHOLD itself. -/
theorem claim_C7_success_response (req : Request) (env : PredictEnv)
    (d : Feats) (p : ℚ) (h : invalidUpload req = false)
    (hc : env.conv = .ok ()) (hd : extract_features env.snd = .ok d)
    (hp : env.predictProba = .ok p) :
    (predict req env).1 =
      .json 200 (.successBody
        (if p > THRESHOLD then PD_LABEL else HEALTHY_LABEL)
        (pyRound3 p) THRESHOLD) := by
  rw [predict_success req env _ p h hc
    (classifyStage_ok_of env.snd env.predictProba d p hd hp)]

/-- C7 witness: probability 0.7 on an all-success environment. -/
theorem claim_C7_witness :
    invalidUpload reqGood = false ∧ envOK70.conv = .ok () ∧
    extract_features envOK70.snd = .ok rowOK ∧
    envOK70.predictProba = .ok (7 / 10) ∧
    (predict reqGood envOK70).1 =
      .json 200 (.successBody
        (if (7 : ℚ) / 10 > THRESHOLD then PD_LABEL else HEALTHY_LABEL)
        (pyRound3 (7 / 10)) THRESHOLD) :=
  ⟨by decide, rfl, extract_features_sndOK, rfl,
   claim_C7_success_response reqGood envOK70 rowOK (7 / 10)
     (by decide) rfl extract_features_sndOK rfl⟩

/-- C8: the threshold comparison is strict — the positive label appears in
the response exactly when the probability is strictly greater than
THRESHOLD, and a probability exactly equal to THRESHOLD yields the
Likely Healthy response. -/
theorem claim_C8_strict_threshold (req : Request) (env : PredictEnv)
    (d : Feats) (p : ℚ) (h : invalidUpload req = false)
    (hc : env.conv = .ok ()) (hd : extract_features env.snd = .ok d)
    (hp : env.predictProba = .ok p) :
    ((predict req env).1 =
        .json 200 (.successBody PD_LABEL (pyRound3 p) THRESHOLD) ↔
      THRESHOLD < p) ∧
    (p = THRESHOLD →
      (predict req env).1 =
        .json 200 (.successBody HEALTHY_LABEL (pyRound3 p) THRESHOLD)) := by
  have hout : (predict req env).1 =
      .json 200 (.successBody
        (if p > THRESHOLD then PD_LABEL else HEALTHY_LABEL)
        (pyRound3 p) THRESHOLD) := by
    rw [predict_success req env _ p h hc
      (classifyStage_ok_of env.snd env.predictProba d p hd hp)]
  constructor
  · constructor
    · intro hres
      rw [hout] at hres
      by_contra hnot
      rw [if_neg hnot] at hres
      simp [PD_LABEL, HEALTHY_LABEL] at hres
    · intro hlt
      rw [hout, if_pos hlt]
  · intro hpe
    subst hpe
    rw [hout, if_neg (lt_irrefl THRESHOLD)]

/-- C8 witness: probability exactly 0.63 produces the Likely Healthy
response. -/
theorem claim_C8_witness :
    invalidUpload reqGood = false ∧
    extract_features sndOK = .ok rowOK ∧
    envThr.predictProba = .ok THRESHOLD ∧
    (predict reqGood envThr).1 =
      .json 200 (.successBody HEALTHY_LABEL (pyRound3 THRESHOLD) THRESHOLD) :=
  ⟨by decide, extract_features_sndOK, rfl,
   (claim_C8_strict_threshold reqGood envThr rowOK THRESHOLD
     (by decide) rfl extract_features_sndOK rfl).2 rfl⟩

/-- C9: MDVP:APQ is computed by the same to_shimmer_apq5 call as
Shimmer:APQ5 (the proxy comment at line 57), so in every row that
extract_features returns the MDVP:APQ entry equals the Shimmer:APQ5 entry
— in particular in every fully successful extraction. -/
theorem claim_C9_apq_proxy (snd : Sound) (d : Feats)
    (h : extract_features snd = .ok d) :
    dget d "MDVP:APQ" = dget d "Shimmer:APQ5" := by
  obtain ⟨freqs, fhi, flo, h1, h2, h3, h4, hd⟩ :=
    extract_features_ok_inv snd d h
  subst hd
  rw [dget_map_keys FEATURE_COLS _ "MDVP:APQ" (by decide),
    dget_map_keys FEATURE_COLS _ "Shimmer:APQ5" (by decide),
    rawFeats_apq snd freqs fhi flo]

/-- C9 witness: the fully successful extraction on sndOK has equal
MDVP:APQ and Shimmer:APQ5 entries. -/
theorem claim_C9_witness :
    extract_features sndOK = .ok rowOK ∧
    dget rowOK "MDVP:APQ" = dget rowOK "Shimmer:APQ5" :=
  ⟨extract_features_sndOK, claim_C9_apq_proxy sndOK rowOK extract_features_sndOK⟩

/-- C10: the eleven jitter/shimmer metrics live in a single guarded block —
if computing any one of them raises, the except branch sets all eleven
entries to NaN, including metrics already computed before the failure. -/
theorem claim_C10_all_or_nothing (snd : Sound) (feats : Feats) (e : String)
    (h : jitterShimmerTry snd feats = .error e) :
    ∀ k ∈ JITTER_SHIMMER_KEYS,
      dget (jitterShimmerBlock snd feats) k = some none := by
  intro k hk
  unfold jitterShimmerBlock
  rw [h]
  exact dget_foldl_dset_none_mem _ _ _ hk

/-- C10 witness: with only the last metric (Shimmer:DDA) failing, the
already-computed MDVP:Jitter(%) entry is still clobbered to NaN. -/
theorem claim_C10_witness :
    jitterShimmerTry sndDdaFail [] = .error "boom" ∧
    "MDVP:Jitter(%)" ∈ JITTER_SHIMMER_KEYS ∧
    dget (jitterShimmerBlock sndDdaFail []) "MDVP:Jitter(%)" = some none :=
  ⟨by decide, by decide,
   claim_C10_all_or_nothing sndDdaFail [] "boom" (by decide)
     "MDVP:Jitter(%)" (by decide)⟩

end ParkinsonsApp

